import Mathlib

/-!
Shallow embedding of the Autoconf repository (src/app.py, src/netmiko_config.py,
src/graphql_schema.py): a Flask backend managing Cisco devices plus a GraphQL
CRUD surface over a YAML device inventory.

External effects (file system, YAML parser, SSH transport, subprocess) are
modelled as explicit parameters describing their outcome; route handlers and
mutations return their HTTP reply / result together with a trace of the device
I/O events they performed, so that ordering and absence of I/O are provable.
Python floats parsed from short decimal literals are modelled exactly as
rationals.
-/

/-- A device record from devices.yaml (fields per the data model: the GraphQL
surface additionally stores an integer `id`). -/
structure Device where
  id : Int
  name : String
  host : String
  username : String
  password : String
  secret : String
  device_type : String
deriving DecidableEq, Repr

/-! ### Character helpers for the ping-output regex

`extract_response_time` in app.py runs
`re.search(r'time[=<]\s*(\d+(?:\.\d+)?)\s*ms', line, re.IGNORECASE)`
on each line containing the substring `time=` or `tiempo=`.
The pattern starts with a literal, `\d+` cannot usefully give characters
back (the continuation needs `.`, whitespace or `m`, none of which is a
digit), and a matched fractional part leaves the continuation no worse
than an empty one, so a deterministic greedy matcher scanning each start
position is equivalent to the Python regex engine here. -/

def isDigitCh (c : Char) : Bool := '0' ≤ c && c ≤ '9'

/-- ASCII whitespace recognised by `\s`. -/
def isSpaceCh (c : Char) : Bool :=
  c == ' ' || c == '\t' || c == '\n' || c == '\r' || c == '\x0b' || c == '\x0c'

/-- Case-insensitive character comparison (re.IGNORECASE). -/
def lowerEq (a b : Char) : Bool := a.toLower == b.toLower

def digitsVal (ds : List Char) : Nat :=
  ds.foldl (fun acc c => 10 * acc + (c.toNat - '0'.toNat)) 0

/-- Value of a fractional digit string, e.g. `"25"` ↦ `25/100`. -/
def fracVal (ds : List Char) : ℚ :=
  (digitsVal ds : ℚ) / (10 : ℚ) ^ ds.length

/-- Match `\s*ms` (case-insensitive) at the head of `cs`; on success return
the captured value `v`. -/
def finishMs (v : ℚ) (cs : List Char) : Option ℚ :=
  match cs.dropWhile isSpaceCh with
  | m :: s :: _ => if lowerEq m 'm' && lowerEq s 's' then some v else none
  | _ => none

/-- Match `\s*(\d+(?:\.\d+)?)\s*ms` at the head of `cs`, returning the
captured numeric value. -/
def matchNumberMs (cs : List Char) : Option ℚ :=
  let rest1 := cs.dropWhile isSpaceCh
  let ds := rest1.takeWhile isDigitCh
  let rest2 := rest1.dropWhile isDigitCh
  if ds.isEmpty then none
  else
    match rest2 with
    | '.' :: rest3 =>
      let fs := rest3.takeWhile isDigitCh
      let rest4 := rest3.dropWhile isDigitCh
      if fs.isEmpty then finishMs (digitsVal ds : ℚ) rest2
      else finishMs ((digitsVal ds : ℚ) + fracVal fs) rest4
    | _ => finishMs (digitsVal ds : ℚ) rest2

/-- Match the whole pattern `time[=<]\s*(\d+(?:\.\d+)?)\s*ms` (IGNORECASE)
at the head of `cs`. -/
def matchTimeAt (cs : List Char) : Option ℚ :=
  match cs with
  | c1 :: c2 :: c3 :: c4 :: c5 :: rest =>
    if lowerEq c1 't' && lowerEq c2 'i' && lowerEq c3 'm' && lowerEq c4 'e' &&
        (c5 == '=' || c5 == '<') then
      matchNumberMs rest
    else none
  | _ => none

/-- Model of `re.search`: try the pattern at every start position, leftmost match wins. -/
def searchTime : List Char → Option ℚ
  | [] => none
  | c :: cs =>
    match matchTimeAt (c :: cs) with
    | some v => some v
    | none => searchTime cs

/-- Whether `needle` is a prefix of `haystack` (plain character equality). -/
def charsAtFront : List Char → List Char → Bool
  | [], _ => true
  | _ :: _, [] => false
  | a :: as, b :: bs => a == b && charsAtFront as bs

/-- Whether `needle` occurs as a contiguous substring of `haystack`
(Python's case-sensitive `in` on str). -/
def charsSub (needle : List Char) : List Char → Bool
  | [] => charsAtFront needle []
  | c :: cs => charsAtFront needle (c :: cs) || charsSub needle cs

/-- One iteration of the app.py loop body: the line is considered only if it
contains the literal `time=` or `tiempo=`; then the English regex is searched. -/
def lineTime (line : String) : Option ℚ :=
  if charsSub "time=".toList line.toList || charsSub "tiempo=".toList line.toList then
    searchTime line.toList
  else none

def firstLineTime : List String → Option ℚ
  | [] => none
  | l :: ls =>
    match lineTime l with
    | some v => some v
    | none => firstLineTime ls

/-- Python `str.split(sep)` for a one-character separator: split at every
occurrence, yielding one more part than separators (so `""` gives `[""]`). -/
def splitOnChar (sep : Char) : List Char → List (List Char)
  | [] => [[]]
  | c :: cs =>
    let rest := splitOnChar sep cs
    if c == sep then [] :: rest
    else
      match rest with
      | r :: rs => (c :: r) :: rs
      | [] => [[c]]

/-- The lines of `ping_output.split('\n')`. -/
def pySplitLines (s : String) : List String :=
  (splitOnChar '\n' s.toList).map (fun cs => String.mk cs)

namespace App

/-- app.py `extract_response_time`: split the ping output on newlines and
return the first per-line match, `None` if no line yields one. -/
def extract_response_time (ping_output : String) : Option ℚ :=
  firstLineTime (pySplitLines ping_output)

end App

/-- Modelled from the spec (§4.3): "scans output lines for a `time=`/localized
`tiempo=` marker followed by a numeric value with unit `ms` (case-insensitive);
returns the first match as a floating-point value, or no value if no line
matches". A marker here is the literal `time=` or `tiempo=` (case-insensitive),
followed by optional whitespace, a decimal value, optional whitespace and `ms`. -/
def specMatchMarkerAt (cs : List Char) : Option ℚ :=
  match cs with
  | c1 :: c2 :: c3 :: c4 :: rest =>
    if lowerEq c1 't' && lowerEq c2 'i' && lowerEq c3 'm' && lowerEq c4 'e' then
      match rest with
      | '=' :: rest1 => matchNumberMs rest1
      | _ => none
    else if lowerEq c1 't' && lowerEq c2 'i' && lowerEq c3 'e' && lowerEq c4 'm' then
      match rest with
      | p :: o :: '=' :: rest1 =>
        if lowerEq p 'p' && lowerEq o 'o' then matchNumberMs rest1 else none
      | _ => none
    else none
  | _ => none

/-- Modelled from the spec: leftmost marker match in a line. -/
def specSearchMarker : List Char → Option ℚ
  | [] => none
  | c :: cs =>
    match specMatchMarkerAt (c :: cs) with
    | some v => some v
    | none => specSearchMarker cs

/-- Modelled from the spec: first line with a marker match, else no value. -/
def specExtractResponseTime (s : String) : Option ℚ :=
  ((pySplitLines s).map (fun l => specSearchMarker l.toList)).foldr
    (fun o acc => match o with | some v => some v | none => acc) none

/-! ### Reachability prober (app.py `ping_device`) -/

/-- Outcome of `subprocess.run(cmd, capture_output=True, text=True, timeout=10)`. -/
inductive SubprocessResult
  | completed (returncode : Int) (stdout : String) (stderr : String)
  | timeoutExpired
  | otherError (msg : String)
deriving DecidableEq, Repr

inductive PingStatus
  | success
  | error
  | timeout
deriving DecidableEq, Repr

structure PingResult where
  status : PingStatus
  message : String
  output : String
  response_time : Option ℚ
deriving DecidableEq, Repr

/-- The ping command line built by app.py (platform branch). -/
def pingCmd (isWindows : Bool) (host : String) : List String :=
  if isWindows then ["ping", "-n", "4", host] else ["ping", "-c", "4", host]

namespace App

/-- app.py `ping_device`, as a function of the subprocess outcome. -/
def ping_device (run : SubprocessResult) : PingResult :=
  match run with
  | .completed rc out err =>
    if rc = 0 then
      { status := .success
        message := "Dispositivo alcanzable"
        output := out
        response_time := extract_response_time out }
    else
      { status := .error
        message := "Dispositivo no alcanzable"
        output := out ++ err
        response_time := none }
  | .timeoutExpired =>
      { status := .timeout
        message := "Tiempo de espera agotado"
        output := "El ping excedió el tiempo límite de 10 segundos"
        response_time := none }
  | .otherError e =>
      { status := .error
        message := "Error al ejecutar ping: " ++ e
        output := ""
        response_time := none }

end App

/-! ### Inventory store: the two `load_devices` implementations

The YAML parser is external; its outcome on the backing file is a parameter.
Mapping values are modelled as device lists since only the `devices` key is
ever read; `nonDict` stands for a truthy non-mapping document (e.g. a
non-empty list), whose subscript/`.get` accesses raise in Python. -/

inductive YamlDoc
  | null
  | dict (entries : List (String × List Device))
  | nonDict
deriving DecidableEq

inductive FileState
  | absent
  | unparsable (msg : String)
  | parsed (doc : YamlDoc)
deriving DecidableEq

/-- A Python exception escaping to the caller. -/
inductive PyError
  | yamlError (msg : String)
  | keyError (key : String)
  | typeError (msg : String)
  | attributeError (msg : String)
deriving DecidableEq

def lookupKey (key : String) : List (String × List Device) → Option (List Device)
  | [] => none
  | (k, v) :: rest => if k == key then some v else lookupKey key rest

namespace App

/-- app.py `load_devices`: catches FileNotFoundError and yaml.YAMLError
(returning `[]`), then evaluates `data['devices']`, which raises when the
document is null, not a mapping, or lacks the key. -/
def load_devices (fs : FileState) : Except PyError (List Device) :=
  match fs with
  | .absent => .ok []
  | .unparsable _ => .ok []
  | .parsed .null => .error (.typeError "NoneType object is not subscriptable")
  | .parsed .nonDict => .error (.typeError "indices must be integers")
  | .parsed (.dict entries) =>
    match lookupKey "devices" entries with
    | some devs => .ok devs
    | none => .error (.keyError "devices")

end App

namespace NetmikoConfig

/-- netmiko_config.py `load_devices`: catches only FileNotFoundError; a YAML
parse error propagates. `yaml.safe_load(f) or {}` turns a null document into
an empty mapping, and `.get("devices", [])` never raises on a mapping. -/
def load_devices (fs : FileState) : Except PyError (List Device) :=
  match fs with
  | .absent => .ok []
  | .unparsable m => .error (.yamlError m)
  | .parsed .null => .ok []
  | .parsed .nonDict => .error (.attributeError "object has no attribute get")
  | .parsed (.dict entries) =>
    match lookupKey "devices" entries with
    | some devs => .ok devs
    | none => .ok []

/-- netmiko_config.py `configure_device`: the whole body (connect, config set,
save, disconnect) sits in a catch-all `try`; `outcome` is the transcript on
success or the exception text on any raise, and the function returns a string
either way — it never propagates. -/
def configure_device (device : Device) (_commands : List String)
    (outcome : Except String String) : String :=
  match outcome with
  | .ok output => output
  | .error e => "Error configurando " ++ device.name ++ ": " ++ e

end NetmikoConfig

/-! ### Session/Auth gate and transport client (app.py) -/

inductive Role
  | admin
  | user
deriving DecidableEq, Repr

/-- A server-side session as created by `/login` (always sets both keys). -/
structure Session where
  username : String
  role : Role
deriving DecidableEq, Repr

/-- The combined guard on every admin route:
`'username' not in session or session['role'] != 'admin'`. -/
def sessionNotAdmin (sess : Option Session) : Bool :=
  match sess with
  | none => true
  | some s => decide (s.role ≠ Role.admin)

/-- Outcome of `ConnectHandler(...)` inside `connect_to_device`. -/
inductive ConnectOutcome
  | ok
  | timeout
  | authFail
  | connError (msg : String)
deriving DecidableEq, Repr

namespace App

/-- app.py `connect_to_device`: returns `(connection, error)`; modelled by the
error component (`none` means an open connection was returned). -/
def connect_to_device (outcome : ConnectOutcome) : Option String :=
  match outcome with
  | .ok => none
  | .timeout => some "Timeout - No se pudo conectar al dispositivo"
  | .authFail => some "Error de autenticación"
  | .connError e => some ("Error de conexión: " ++ e)

end App

/-- Device-side I/O performed by a route, in order. -/
inductive DevIOEvent
  | connect (d : Device)
  | command (c : String)
deriving DecidableEq, Repr

/-- JSON reply of `/monitoring/config`: HTTP status, error message if any,
success flag, and the `config` payload when present. -/
structure ConfigReply where
  status : Nat
  error : Option String
  success : Bool
  config : Option String
deriving DecidableEq, Repr

namespace App

/-- app.py `get_device_config` (`POST /monitoring/config`): guard, resolve the
device by name, connect, run `show running-config`. `cmdResult` is the
send_command outcome (ok text, or the raised exception's text). -/
def get_device_config (sess : Option Session) (devices : List Device)
    (device_name : String) (conn : ConnectOutcome)
    (cmdResult : Except String String) : ConfigReply × List DevIOEvent :=
  if sessionNotAdmin sess then
    (⟨403, some "Acceso denegado", false, none⟩, [])
  else
    match devices.find? (fun d => d.name == device_name) with
    | none => (⟨404, some "Dispositivo no encontrado", false, none⟩, [])
    | some device =>
      match connect_to_device conn with
      | some err => (⟨500, some err, false, none⟩, [.connect device])
      | none =>
        match cmdResult with
        | .ok output =>
          (⟨200, none, true, some output⟩,
           [.connect device, .command "show running-config"])
        | .error e =>
          (⟨500, some ("Error al obtener configuración: " ++ e), false, none⟩,
           [.connect device, .command "show running-config"])

end App

/-- JSON reply of `/security/audit`: the `results` are `(command, output)`
pairs for the three fixed inspection commands. -/
structure AuditReply where
  status : Nat
  error : Option String
  success : Bool
  results : List (String × String)
deriving DecidableEq, Repr

/-- Run the audit loop: each command's output is recorded until one raises,
returning collected pairs and either the remaining error or final success. -/
def runAuditCmds (f : String → Except String String) :
    List String → Except String (List (String × String))
  | [] => .ok []
  | c :: cs =>
    match f c with
    | .error e => .error e
    | .ok out =>
      match runAuditCmds f cs with
      | .ok rest => .ok ((c, out) :: rest)
      | .error e => .error e

/-- Commands attempted by the audit loop (it stops after the first raise). -/
def auditAttempted (f : String → Except String String) :
    List String → List String
  | [] => []
  | c :: cs =>
    match f c with
    | .error _ => [c]
    | .ok _ => c :: auditAttempted f cs

namespace App

def audit_commands : List String :=
  ["show running-config", "show users", "show privilege"]

/-- app.py `security_audit` (`POST /security/audit`): guard, resolve, connect,
`enable()` (may raise: `enableRes = some text`), then the three fixed commands
in order, stopping at the first raise with a 500. -/
def security_audit (sess : Option Session) (devices : List Device)
    (device_name : String) (conn : ConnectOutcome) (enableRes : Option String)
    (cmdRes : String → Except String String) : AuditReply × List DevIOEvent :=
  if sessionNotAdmin sess then
    (⟨403, some "Acceso denegado", false, []⟩, [])
  else
    match devices.find? (fun d => d.name == device_name) with
    | none => (⟨404, some "Dispositivo no encontrado", false, []⟩, [])
    | some device =>
      match connect_to_device conn with
      | some err => (⟨500, some err, false, []⟩, [.connect device])
      | none =>
        match enableRes with
        | some e =>
          (⟨500, some ("Error al realizar auditoría: " ++ e), false, []⟩,
           [.connect device])
        | none =>
          let trace := DevIOEvent.connect device ::
            (auditAttempted cmdRes audit_commands).map DevIOEvent.command
          match runAuditCmds cmdRes audit_commands with
          | .ok pairs => (⟨200, none, true, pairs⟩, trace)
          | .error e =>
            (⟨500, some ("Error al realizar auditoría: " ++ e), false, []⟩, trace)

end App

/-! ### Template application (`POST /maintenance/apply_template`) -/

/-- Status of one applied command. -/
inductive CmdStatus
  | success
  | error
deriving DecidableEq, Repr

/-- One entry of the route's `results` list. -/
structure CmdResult where
  command : String
  output : String
  status : CmdStatus
deriving DecidableEq, Repr

/-- Device-side behaviour for one loop iteration: whether `enable()` raises
(with the exception text) and the `send_command` outcome. -/
structure StepBehavior where
  enableRaises : Option String
  send : Except String String

/-- One iteration of the template loop: commands starting with `configure`
first call `enable()`; any raise inside the iteration is caught and recorded
as an `error` entry holding the exception text. -/
def runTemplateCommand (command : String) (b : StepBehavior) : CmdResult :=
  if charsAtFront "configure".toList command.toList then
    match b.enableRaises with
    | some msg => ⟨command, msg, .error⟩
    | none =>
      match b.send with
      | .ok out => ⟨command, out, .success⟩
      | .error e => ⟨command, e, .error⟩
  else
    match b.send with
    | .ok out => ⟨command, out, .success⟩
    | .error e => ⟨command, e, .error⟩

/-- The template loop from position `i`: every command is executed, each
outcome recorded; an error never aborts the iteration. -/
def runTemplateCommandsFrom (behave : Nat → StepBehavior) :
    Nat → List String → List CmdResult
  | _, [] => []
  | i, c :: cs => runTemplateCommand c (behave i) :: runTemplateCommandsFrom behave (i + 1) cs

/-- app.py lines 408-427: apply all template commands in order. -/
def runTemplateCommands (commands : List String) (behave : Nat → StepBehavior) :
    List CmdResult :=
  runTemplateCommandsFrom behave 0 commands

/-- Result of `yaml.safe_load(template_content)`. -/
inductive TemplateParse
  | parseError (msg : String)
  | nullDoc
  | doc (commands : Option (List String))
deriving DecidableEq

/-- JSON reply of `/maintenance/apply_template`. -/
structure TemplateReply where
  status : Nat
  error : Option String
  success : Bool
  results : List CmdResult
deriving DecidableEq

namespace App

/-- app.py `apply_yaml_template` (`POST /maintenance/apply_template`): guard,
resolve, parse the template (a YAML error gives 400; a null document makes
`'commands' not in yaml_data` raise, caught as 500; a missing `commands` key
gives 400), connect, then run every command recording per-command outcomes. -/
def apply_yaml_template (sess : Option Session) (devices : List Device)
    (device_name : String) (tmpl : TemplateParse) (conn : ConnectOutcome)
    (behave : Nat → StepBehavior) : TemplateReply × List DevIOEvent :=
  if sessionNotAdmin sess then
    (⟨403, some "Acceso denegado", false, []⟩, [])
  else
    match devices.find? (fun d => d.name == device_name) with
    | none => (⟨404, some "Dispositivo no encontrado", false, []⟩, [])
    | some device =>
      match tmpl with
      | .parseError m =>
        (⟨400, some ("Error en formato YAML: " ++ m), false, []⟩, [])
      | .nullDoc =>
        (⟨500, some "Error al aplicar template: argument of type NoneType is not iterable",
          false, []⟩, [])
      | .doc none =>
        (⟨400, some "Template debe contener una sección commands", false, []⟩, [])
      | .doc (some commands) =>
        match connect_to_device conn with
        | some err => (⟨500, some err, false, []⟩, [.connect device])
        | none =>
          (⟨200, none, true, runTemplateCommands commands behave⟩,
           DevIOEvent.connect device :: commands.map DevIOEvent.command)

end App

/-! ### GraphQL CRUD surface (graphql_schema.py) -/

/-- The GraphQL `DeviceInput`: all six fields required. -/
structure DeviceInput where
  name : String
  host : String
  username : String
  password : String
  secret : String
  device_type : String
deriving DecidableEq, Repr

/-- Effects performed by a mutation, in order: a full-inventory file save
(`save_devices`) or an incidental configure push (`configure_device`, whose
returned string the mutations discard). -/
inductive MutEvent
  | save (devs : List Device)
  | configPush (d : Device) (cmds : List String) (result : String)
deriving DecidableEq

/-- Python `max` over a list of ints (`none` on the empty list, where Python
raises — the mutation only calls it on a non-empty inventory). -/
def pyMaxList : List Int → Option Int
  | [] => none
  | x :: xs => some (xs.foldl max x)

namespace GraphqlSchema

/-- graphql_schema.py `resolve_device_by_id`: first record whose `id` equals
the argument, else no device. -/
def resolve_device_by_id (devices : List Device) (id : Int) : Option Device :=
  devices.find? (fun d => d.id == id)

/-- Result of `CreateDevice.mutate`: the inventory written to the file, the
device returned to the client, and the ordered effect trace. -/
structure CreateResult where
  saved : List Device
  returned : Device
  trace : List MutEvent
deriving DecidableEq

/-- graphql_schema.py `CreateDevice.mutate`: load, assign
`max([d["id"] for d in devices]) + 1 if devices else 1`, append, save the whole
inventory, then push `hostname <name>` (outcome `cfg`; `configure_device`
never raises and its return value is discarded). -/
def CreateDevice.mutate (devices : List Device) (device_data : DeviceInput)
    (cfg : Except String String) : CreateResult :=
  let new_id : Int := (pyMaxList (devices.map (·.id))).elim 1 (· + 1)
  let new_device : Device :=
    { id := new_id
      name := device_data.name
      host := device_data.host
      username := device_data.username
      password := device_data.password
      secret := device_data.secret
      device_type := device_data.device_type }
  let saved := devices ++ [new_device]
  let pushResult :=
    NetmikoConfig.configure_device new_device ["hostname " ++ new_device.name] cfg
  { saved := saved
    returned := new_device
    trace := [.save saved,
              .configPush new_device ["hostname " ++ new_device.name] pushResult] }

/-- The `for dev in devices` loop of `UpdateDevice.mutate`: overwrite the six
input fields of the first record with the given id (its `id` is untouched),
returning the updated inventory and record; `none` when no record matches. -/
def updateList : List Device → Int → DeviceInput → Option (List Device × Device)
  | [], _, _ => none
  | d :: ds, id, device_data =>
    if d.id == id then
      let d' : Device :=
        { d with
          name := device_data.name
          host := device_data.host
          username := device_data.username
          password := device_data.password
          secret := device_data.secret
          device_type := device_data.device_type }
      some (d' :: ds, d')
    else
      match updateList ds id device_data with
      | some (ds', dev) => some (d :: ds', dev)
      | none => none

/-- Result of `UpdateDevice.mutate`: the device returned (none when the id
matched nothing) and the ordered effect trace. -/
structure UpdateResult where
  device : Option Device
  trace : List MutEvent
deriving DecidableEq

/-- graphql_schema.py `UpdateDevice.mutate`: on the first matching record,
replace its fields, save the whole inventory, push `hostname <name>` and
return the record; when nothing matches, return `None` having performed no
save and no push. -/
def UpdateDevice.mutate (devices : List Device) (id : Int)
    (device_data : DeviceInput) (cfg : Except String String) : UpdateResult :=
  match updateList devices id device_data with
  | some (devs', dev) =>
    let pushResult :=
      NetmikoConfig.configure_device dev ["hostname " ++ dev.name] cfg
    { device := some dev
      trace := [.save devs', .configPush dev ["hostname " ++ dev.name] pushResult] }
  | none => { device := none, trace := [] }

/-- Result of `DeleteDevice.mutate`. -/
structure DeleteResult where
  ok : Bool
  saved : List Device
  trace : List MutEvent
deriving DecidableEq

/-- graphql_schema.py `DeleteDevice.mutate`: filter out records with the given
id, save the remainder, and return `ok=True` unconditionally. -/
def DeleteDevice.mutate (devices : List Device) (id : Int) : DeleteResult :=
  let remaining := devices.filter (fun d => !(d.id == id))
  { ok := true, saved := remaining, trace := [.save remaining] }

end GraphqlSchema

/-- Whether the body of one template-loop iteration raises, and with which
exception text: `enable()` is consulted first for `configure` commands, then
the `send_command` outcome. -/
def stepError (command : String) (b : StepBehavior) : Option String :=
  if charsAtFront "configure".toList command.toList then
    match b.enableRaises with
    | some msg => some msg
    | none =>
      match b.send with
      | .ok _ => none
      | .error e => some e
  else
    match b.send with
    | .ok _ => none
    | .error e => some e

/-! ## Shared lemmas -/

theorem firstLineTime_eq_filterMap_head (ls : List String) :
    firstLineTime ls = (ls.filterMap lineTime).head? := by
  induction ls with
  | nil => rfl
  | cons l ls ih =>
    rw [firstLineTime, List.filterMap_cons]
    cases h : lineTime l with
    | none => simpa using ih
    | some v => rfl

theorem foldl_max_le_init (xs : List Int) (a : Int) : a ≤ xs.foldl max a := by
  induction xs generalizing a with
  | nil => exact le_refl a
  | cons x xs ih => exact le_trans (le_max_left a x) (ih (max a x))

theorem mem_le_foldl_max (xs : List Int) (a x : Int) (hx : x ∈ xs) :
    x ≤ xs.foldl max a := by
  induction xs generalizing a with
  | nil => cases hx
  | cons y ys ih =>
    rcases List.mem_cons.mp hx with rfl | h'
    · exact le_trans (le_max_right a x) (foldl_max_le_init ys (max a x))
    · exact ih (max a y) h'

theorem le_of_pyMaxList (l : List Int) (x m : Int) (hx : x ∈ l)
    (hm : pyMaxList l = some m) : x ≤ m := by
  cases l with
  | nil => cases hx
  | cons y ys =>
    have hm' : ys.foldl max y = m := Option.some.inj hm
    subst hm'
    rcases List.mem_cons.mp hx with rfl | h'
    · exact foldl_max_le_init ys x
    · exact mem_le_foldl_max ys y x h'

/-! ## Claims -/

/-- C2 (code_bug): a ping output line carrying only the localized Spanish
marker `tiempo=15 ms` passes the line filter of `extract_response_time`
(which checks for the substring), but the regex only accepts `time[=<]`, so
the function returns no value instead of `15.0`. -/
theorem extract_response_time_spanish_marker_unparsed :
    App.extract_response_time
      "64 bytes desde 8.8.8.8: icmp_seq=1 ttl=117 tiempo=15 ms" = none := by
  decide

/-- C3 (amended): `load_devices` in app.py returns `[]` when the file is
absent or its contents fail YAML parsing; `load_devices` in
netmiko_config.py returns `[]` when the file is absent but propagates a YAML
parse error to the caller. -/
theorem load_devices_absent_or_malformed (m : String) :
    App.load_devices .absent = .ok []
    ∧ App.load_devices (.unparsable m) = .ok []
    ∧ NetmikoConfig.load_devices .absent = .ok []
    ∧ NetmikoConfig.load_devices (.unparsable m) = .error (.yamlError m) :=
  ⟨rfl, rfl, rfl, rfl⟩

/-- Witness for C3 at a concrete malformed-file input. -/
theorem load_devices_absent_or_malformed_witness :
    App.load_devices .absent = .ok []
    ∧ App.load_devices (.unparsable "bad") = .ok []
    ∧ NetmikoConfig.load_devices .absent = .ok []
    ∧ NetmikoConfig.load_devices (.unparsable "bad") = .error (.yamlError "bad") :=
  load_devices_absent_or_malformed "bad"

/-- C3 counterexample: on a malformed backing file the GraphQL store's
`load_devices` raises (propagates the YAML error) instead of returning the
empty sequence. -/
theorem netmiko_load_devices_raises_on_malformed :
    NetmikoConfig.load_devices (.unparsable "bad") = .error (.yamlError "bad")
    ∧ NetmikoConfig.load_devices (.unparsable "bad") ≠ .ok [] :=
  ⟨rfl, fun h => Except.noConfusion h⟩

/-- C6 (confirmed): `ping_device` maps process exit code 0 to `success` with
the parsed response time, any nonzero exit code to `error` with no response
time, and expiry of the outer 10-second timeout to `timeout`, for every
captured output. -/
theorem ping_device_status_mapping (rc : Int) (out err : String) :
    (App.ping_device (.completed rc out err)).status =
      (if rc = 0 then PingStatus.success else PingStatus.error)
    ∧ (App.ping_device (.completed rc out err)).response_time =
      (if rc = 0 then App.extract_response_time out else none)
    ∧ (App.ping_device .timeoutExpired).status = PingStatus.timeout := by
  by_cases h : rc = 0 <;> simp [App.ping_device, h]

/-- Witness for C6 at concrete exit codes. -/
theorem ping_device_status_mapping_witness :
    (App.ping_device (.completed 0 "time=3 ms" "")).status = PingStatus.success
    ∧ (App.ping_device (.completed 1 "" "err")).status = PingStatus.error
    ∧ (App.ping_device .timeoutExpired).status = PingStatus.timeout := by
  refine ⟨?_, ?_, (ping_device_status_mapping 0 "" "").2.2⟩
  · have h := (ping_device_status_mapping 0 "time=3 ms" "").1
    simpa using h
  · have h := (ping_device_status_mapping 1 "" "err").1
    simpa using h

/-- C8 (amended): `extract_response_time` scans lines in order and returns the
first line's value whose text contains a literal `time=`/`tiempo=` substring
and matches the English pattern `time[=<] value ms` (case-insensitive); when
no line yields a match it returns no value. Lines whose only marker is the
localized `tiempo=` never themselves produce a value. -/
theorem extract_response_time_first_match (s : String) :
    App.extract_response_time s = ((pySplitLines s).filterMap lineTime).head?
    ∧ (App.extract_response_time s = none ↔
        ∀ l ∈ pySplitLines s, lineTime l = none) := by
  refine ⟨firstLineTime_eq_filterMap_head _, ?_⟩
  rw [App.extract_response_time, firstLineTime_eq_filterMap_head]
  simp [List.head?_eq_none_iff, List.filterMap_eq_nil_iff]

/-- Witness for C8 at a concrete two-line output. -/
theorem extract_response_time_first_match_witness :
    App.extract_response_time "PING host\ntime=3 ms" =
      ((pySplitLines "PING host\ntime=3 ms").filterMap lineTime).head?
    ∧ App.extract_response_time "PING host\ntime=3 ms" = some 3 := by
  have h := (extract_response_time_first_match "PING host\ntime=3 ms").1
  exact ⟨h, by rw [h]; decide⟩

/-- C8 counterexample: on output whose first time-marker line is the localized
`tiempo=15 ms`, the code does not return the first marker match (the
spec-modelled scanner yields `15`, the code yields `3` from a later line). -/
theorem extract_response_time_differs_from_spec_marker :
    specExtractResponseTime "PING 8.8.8.8\ntiempo=15 ms\ntime=3 ms" = some 15
    ∧ App.extract_response_time "PING 8.8.8.8\ntiempo=15 ms\ntime=3 ms" = some 3
    ∧ App.extract_response_time "PING 8.8.8.8\ntiempo=15 ms\ntime=3 ms" ≠
        specExtractResponseTime "PING 8.8.8.8\ntiempo=15 ms\ntime=3 ms" :=
  ⟨by decide, by decide, by decide⟩

theorem runTemplateCommandsFrom_length (behave : Nat → StepBehavior) (k : Nat)
    (cs : List String) : (runTemplateCommandsFrom behave k cs).length = cs.length := by
  induction cs generalizing k with
  | nil => rfl
  | cons c cs ih => simp [runTemplateCommandsFrom, ih]

theorem runTemplateCommandsFrom_getElem (behave : Nat → StepBehavior) (k : Nat)
    (cs : List String) (i : Nat) :
    (runTemplateCommandsFrom behave k cs)[i]? =
      (cs[i]?).map (fun c => runTemplateCommand c (behave (k + i))) := by
  induction cs generalizing k i with
  | nil => simp [runTemplateCommandsFrom]
  | cons c cs ih =>
    cases i with
    | zero => simp [runTemplateCommandsFrom]
    | succ j =>
      have harith : k + 1 + j = k + (j + 1) := by omega
      simp [runTemplateCommandsFrom, ih (k + 1) j, harith]

theorem runTemplateCommand_spec (c : String) (b : StepBehavior) :
    (runTemplateCommand c b).command = c
    ∧ (stepError c b = none → (runTemplateCommand c b).status = CmdStatus.success)
    ∧ (∀ e, stepError c b = some e →
        (runTemplateCommand c b).status = CmdStatus.error
        ∧ (runTemplateCommand c b).output = e) := by
  unfold runTemplateCommand stepError
  by_cases hq : charsAtFront "configure".toList c.toList = true
  · simp only [hq]
    cases b.enableRaises with
    | some msg => simp
    | none =>
      cases b.send with
      | ok out => simp
      | error e => simp
  · simp only [hq]
    cases b.send with
    | ok out => simp
    | error e => simp

/-- C5 (confirmed): applying a template over `n` commands yields an
`n`-element result sequence; the `i`-th entry is computed from the `i`-th
command alone (so an earlier failure never prevents later commands from
executing, and the original order is kept), with status `success` unless that
command's iteration raised, in which case the status is `error` and the entry's
output holds the exception text. -/
theorem template_application_partial_failure (commands : List String)
    (behave : Nat → StepBehavior) :
    (runTemplateCommands commands behave).length = commands.length
    ∧ (∀ i : Nat, (runTemplateCommands commands behave)[i]? =
        (commands[i]?).map (fun c => runTemplateCommand c (behave i)))
    ∧ (∀ c b, (runTemplateCommand c b).command = c
        ∧ (stepError c b = none → (runTemplateCommand c b).status = CmdStatus.success)
        ∧ (∀ e, stepError c b = some e →
            (runTemplateCommand c b).status = CmdStatus.error
            ∧ (runTemplateCommand c b).output = e)) := by
  refine ⟨runTemplateCommandsFrom_length behave 0 commands, fun i => ?_,
    fun c b => runTemplateCommand_spec c b⟩
  simpa using runTemplateCommandsFrom_getElem behave 0 commands i

/-- Witness for C5: a 3-command template whose second command fails yields
statuses `[success, error, success]`, not an aborted shorter sequence. -/
theorem template_application_partial_failure_witness :
    (runTemplateCommands ["show version", "bad command", "show clock"]
        (fun i => ⟨none, if i = 1 then .error "boom" else .ok "out"⟩)).length = 3
    ∧ (runTemplateCommands ["show version", "bad command", "show clock"]
        (fun i => ⟨none, if i = 1 then .error "boom" else .ok "out"⟩)).map
          (fun r => r.status) =
        [CmdStatus.success, CmdStatus.error, CmdStatus.success] := by
  have h := template_application_partial_failure
    ["show version", "bad command", "show clock"]
    (fun i => ⟨none, if i = 1 then .error "boom" else .ok "out"⟩)
  exact ⟨by simpa using h.1, by decide⟩

/-- C1 (amended): every embedded admin-only route (one per privileged
category: monitoring `get_device_config`, maintenance `apply_yaml_template`,
security `security_audit`) rejects both a request with no valid session and a
request whose session role is not admin with HTTP status 403 — the guard is a
single combined check, so unauthenticated requests also get 403, not 401 —
and performs no device I/O in either case. -/
theorem admin_routes_reject_before_io (sess : Option Session)
    (h : sess = none ∨ ∃ s, sess = some s ∧ s.role ≠ Role.admin)
    (devices : List Device) (device_name : String) (conn : ConnectOutcome)
    (cmdResult : Except String String) (enableRes : Option String)
    (cmdRes : String → Except String String) (tmpl : TemplateParse)
    (behave : Nat → StepBehavior) :
    App.get_device_config sess devices device_name conn cmdResult =
      (⟨403, some "Acceso denegado", false, none⟩, [])
    ∧ App.security_audit sess devices device_name conn enableRes cmdRes =
      (⟨403, some "Acceso denegado", false, []⟩, [])
    ∧ App.apply_yaml_template sess devices device_name tmpl conn behave =
      (⟨403, some "Acceso denegado", false, []⟩, []) := by
  have hg : sessionNotAdmin sess = true := by
    rcases h with rfl | ⟨s, rfl, hs⟩
    · rfl
    · simp [sessionNotAdmin, hs]
  refine ⟨?_, ?_, ?_⟩ <;>
    simp [App.get_device_config, App.security_audit, App.apply_yaml_template, hg]

/-- Witness for C1 at a concrete unauthenticated request. -/
theorem admin_routes_reject_before_io_witness :
    App.get_device_config none [] "R1" .ok (.ok "") =
      (⟨403, some "Acceso denegado", false, none⟩, [])
    ∧ App.security_audit none [] "R1" .ok none (fun _ => .ok "") =
      (⟨403, some "Acceso denegado", false, []⟩, [])
    ∧ App.apply_yaml_template none [] "R1" (.doc none) .ok
        (fun _ => ⟨none, .ok ""⟩) =
      (⟨403, some "Acceso denegado", false, []⟩, []) :=
  admin_routes_reject_before_io none (Or.inl rfl) [] "R1" .ok (.ok "") none
    (fun _ => .ok "") (.doc none) (fun _ => ⟨none, .ok ""⟩)

/-- C1 counterexample: an admin-only route invoked with no session returns
status 403, not the claimed 401. -/
theorem admin_route_unauthenticated_returns_403_not_401 :
    (App.get_device_config none [] "R1" .ok (.ok "")).fst.status = 403
    ∧ (App.get_device_config none [] "R1" .ok (.ok "")).fst.status ≠ 401 := by
  exact ⟨rfl, by decide⟩

theorem updateList_none_of_no_match (devices : List Device) (id : Int)
    (input : DeviceInput) (h : ∀ d ∈ devices, d.id ≠ id) :
    GraphqlSchema.updateList devices id input = none := by
  induction devices with
  | nil => rfl
  | cons d ds ih =>
    have hd : ¬(d.id = id) := h d (List.mem_cons_self d ds)
    simp [GraphqlSchema.updateList, hd,
      ih (fun x hx => h x (List.mem_cons_of_mem d hx))]

theorem updateList_some_mem (devices : List Device) (id : Int)
    (input : DeviceInput) (h : ∃ d ∈ devices, d.id = id) :
    ∃ devs' dev, GraphqlSchema.updateList devices id input = some (devs', dev)
      ∧ dev ∈ devs' := by
  induction devices with
  | nil => simp at h
  | cons d ds ih =>
    by_cases hid : d.id = id
    · refine ⟨{ d with
          name := input.name
          host := input.host
          username := input.username
          password := input.password
          secret := input.secret
          device_type := input.device_type } :: ds, _,
        ?_, List.mem_cons_self _ _⟩
      simp [GraphqlSchema.updateList, hid]
    · have h' : ∃ x ∈ ds, x.id = id := by
        rcases h with ⟨x, hx, hxid⟩
        rcases List.mem_cons.mp hx with rfl | hx'
        · exact absurd hxid hid
        · exact ⟨x, hx', hxid⟩
      rcases ih h' with ⟨devs', dev, heq, hmem⟩
      refine ⟨d :: devs', dev, ?_, List.mem_cons_of_mem _ hmem⟩
      simp [GraphqlSchema.updateList, hid, heq]

/-- C9 (confirmed): updateDevice with an identifier matching no stored record
performs no file save and no transport push (its effect trace is empty, so the
inventory file is left unchanged) and yields no device. -/
theorem update_unknown_id_no_effect (devices : List Device) (id : Int)
    (input : DeviceInput) (cfg : Except String String)
    (h : ∀ d ∈ devices, d.id ≠ id) :
    GraphqlSchema.UpdateDevice.mutate devices id input cfg =
      { device := none, trace := [] } := by
  simp [GraphqlSchema.UpdateDevice.mutate,
    updateList_none_of_no_match devices id input h]

/-- Witness for C9 at a concrete unmatched identifier. -/
theorem update_unknown_id_no_effect_witness :
    GraphqlSchema.UpdateDevice.mutate [⟨1, "R1", "h", "u", "p", "s", "cisco_ios"⟩]
      99 ⟨"R2", "h2", "u2", "p2", "s2", "cisco_ios"⟩ (.ok "") =
      { device := none, trace := [] } :=
  update_unknown_id_no_effect _ _ _ _ (by decide)

/-- C10 (confirmed): deleteDevice always answers ok = True and always saves
the filtered inventory; when no record carries the requested identifier the
saved inventory equals the loaded one, so deleting a nonexistent id silently
succeeds without removing anything. -/
theorem delete_always_ok (devices : List Device) (id : Int) :
    (GraphqlSchema.DeleteDevice.mutate devices id).ok = true
    ∧ (GraphqlSchema.DeleteDevice.mutate devices id).trace =
        [MutEvent.save (GraphqlSchema.DeleteDevice.mutate devices id).saved]
    ∧ ((∀ d ∈ devices, d.id ≠ id) →
        (GraphqlSchema.DeleteDevice.mutate devices id).saved = devices) := by
  refine ⟨rfl, rfl, fun h => ?_⟩
  show devices.filter (fun d => !(d.id == id)) = devices
  refine List.filter_eq_self.mpr (fun d hd => ?_)
  simpa using h d hd

/-- Witness for C10: deleting id 3 from an inventory holding only id 7. -/
theorem delete_always_ok_witness :
    (GraphqlSchema.DeleteDevice.mutate [⟨7, "R7", "h", "u", "p", "s", "cisco_ios"⟩] 3).ok
      = true
    ∧ (GraphqlSchema.DeleteDevice.mutate [⟨7, "R7", "h", "u", "p", "s", "cisco_ios"⟩] 3).saved
      = [⟨7, "R7", "h", "u", "p", "s", "cisco_ios"⟩] :=
  ⟨(delete_always_ok [⟨7, "R7", "h", "u", "p", "s", "cisco_ios"⟩] 3).1,
   (delete_always_ok [⟨7, "R7", "h", "u", "p", "s", "cisco_ios"⟩] 3).2.2 (by decide)⟩

/-- C4 (confirmed): in createDevice (always) and updateDevice (on a matching
id), the full-inventory save is the first effect and the incidental hostname
push the second; when the push's underlying configure raises (outcome
`.error e`), `configure_device` still returns a string and the saved inventory
and returned record are the same as on a successful push — the mutation is
neither rolled back nor blocked, and the saved file still contains the
created/updated record. -/
theorem mutations_save_before_push (devices : List Device) (input : DeviceInput)
    (e : String) (id : Int) (h : ∃ d ∈ devices, d.id = id) :
    (GraphqlSchema.CreateDevice.mutate devices input (.error e)).trace =
      [MutEvent.save (GraphqlSchema.CreateDevice.mutate devices input (.error e)).saved,
       MutEvent.configPush
         (GraphqlSchema.CreateDevice.mutate devices input (.error e)).returned
         ["hostname " ++ input.name]
         ("Error configurando " ++ input.name ++ ": " ++ e)]
    ∧ (GraphqlSchema.CreateDevice.mutate devices input (.error e)).returned ∈
        (GraphqlSchema.CreateDevice.mutate devices input (.error e)).saved
    ∧ (GraphqlSchema.CreateDevice.mutate devices input (.error e)).saved =
        (GraphqlSchema.CreateDevice.mutate devices input (.ok "")).saved
    ∧ (GraphqlSchema.CreateDevice.mutate devices input (.error e)).returned =
        (GraphqlSchema.CreateDevice.mutate devices input (.ok "")).returned
    ∧ ∃ devs' dev,
        (GraphqlSchema.UpdateDevice.mutate devices id input (.error e)).trace =
          [MutEvent.save devs',
           MutEvent.configPush dev ["hostname " ++ dev.name]
             ("Error configurando " ++ dev.name ++ ": " ++ e)]
        ∧ (GraphqlSchema.UpdateDevice.mutate devices id input (.error e)).device =
            some dev
        ∧ dev ∈ devs'
        ∧ (GraphqlSchema.UpdateDevice.mutate devices id input (.ok "")).device =
            some dev := by
  obtain ⟨devs', dev, heq, hmem⟩ := updateList_some_mem devices id input h
  refine ⟨rfl, ?_, rfl, rfl, devs', dev, ?_, ?_, hmem, ?_⟩
  · simp [GraphqlSchema.CreateDevice.mutate]
  · simp [GraphqlSchema.UpdateDevice.mutate, heq, NetmikoConfig.configure_device]
  · simp [GraphqlSchema.UpdateDevice.mutate, heq]
  · simp [GraphqlSchema.UpdateDevice.mutate, heq]

/-- Witness for C4: updating the only device, with the configure push failing,
still yields a device. -/
theorem mutations_save_before_push_witness :
    ((GraphqlSchema.UpdateDevice.mutate [⟨1, "R1", "h", "u", "p", "s", "cisco_ios"⟩]
        1 ⟨"R2", "h2", "u2", "p2", "s2", "cisco_ios"⟩ (.error "boom")).device).isSome
      = true := by
  obtain ⟨-, -, -, -, devs', dev, -, hdev, -, -⟩ :=
    mutations_save_before_push [⟨1, "R1", "h", "u", "p", "s", "cisco_ios"⟩]
      ⟨"R2", "h2", "u2", "p2", "s2", "cisco_ios"⟩ "boom" 1
      ⟨⟨1, "R1", "h", "u", "p", "s", "cisco_ios"⟩, List.mem_cons_self _ _, rfl⟩
  simp [hdev]

/-- C7 (confirmed): createDevice assigns the identifier max existing id + 1, or
1 on an empty inventory — strictly greater than every stored id — and fetching
deviceById on the saved inventory with the assigned identifier returns exactly
the created record. -/
theorem create_then_fetch_roundtrip (devices : List Device) (input : DeviceInput)
    (cfg : Except String String) :
    (devices = [] →
      (GraphqlSchema.CreateDevice.mutate devices input cfg).returned.id = 1)
    ∧ (∀ m, pyMaxList (devices.map (fun d => d.id)) = some m →
        (GraphqlSchema.CreateDevice.mutate devices input cfg).returned.id = m + 1)
    ∧ (∀ d ∈ devices,
        d.id < (GraphqlSchema.CreateDevice.mutate devices input cfg).returned.id)
    ∧ GraphqlSchema.resolve_device_by_id
        (GraphqlSchema.CreateDevice.mutate devices input cfg).saved
        (GraphqlSchema.CreateDevice.mutate devices input cfg).returned.id =
      some (GraphqlSchema.CreateDevice.mutate devices input cfg).returned := by
  have hret : (GraphqlSchema.CreateDevice.mutate devices input cfg).returned.id =
      (pyMaxList (devices.map (fun d => d.id))).elim 1 (· + 1) := rfl
  have hlt : ∀ d ∈ devices,
      d.id < (GraphqlSchema.CreateDevice.mutate devices input cfg).returned.id := by
    intro d hd
    cases hpm : pyMaxList (devices.map (fun d => d.id)) with
    | none =>
      cases devices with
      | nil => cases hd
      | cons d0 ds => simp [pyMaxList] at hpm
    | some m =>
      have hle : d.id ≤ m :=
        le_of_pyMaxList _ _ _ (List.mem_map_of_mem _ hd) hpm
      rw [hret, hpm]
      exact Int.lt_add_one_iff.mpr hle
  refine ⟨fun hdev => by subst hdev; rfl,
    fun m hm => by rw [hret, hm]; rfl, hlt, ?_⟩
  have hsaved : (GraphqlSchema.CreateDevice.mutate devices input cfg).saved =
      devices ++ [(GraphqlSchema.CreateDevice.mutate devices input cfg).returned] := rfl
  have hnone : devices.find? (fun d =>
      d.id == (GraphqlSchema.CreateDevice.mutate devices input cfg).returned.id)
      = none := by
    rw [List.find?_eq_none]
    intro d hd
    simp only [beq_iff_eq]
    exact Int.ne_of_lt (hlt d hd)
  rw [GraphqlSchema.resolve_device_by_id, hsaved, List.find?_append, hnone]
  simp [List.find?]

/-- Witness for C7: creating into a 2-device inventory with ids 1 and 5
assigns id 6 and fetching id 6 returns the created record. -/
theorem create_then_fetch_roundtrip_witness :
    (GraphqlSchema.CreateDevice.mutate
      [⟨1, "R1", "h", "u", "p", "s", "cisco_ios"⟩,
       ⟨5, "R5", "h", "u", "p", "s", "cisco_ios"⟩]
      ⟨"R6", "h6", "u6", "p6", "s6", "cisco_ios"⟩ (.ok "")).returned.id = 6
    ∧ GraphqlSchema.resolve_device_by_id
        (GraphqlSchema.CreateDevice.mutate
          [⟨1, "R1", "h", "u", "p", "s", "cisco_ios"⟩,
           ⟨5, "R5", "h", "u", "p", "s", "cisco_ios"⟩]
          ⟨"R6", "h6", "u6", "p6", "s6", "cisco_ios"⟩ (.ok "")).saved
        (GraphqlSchema.CreateDevice.mutate
          [⟨1, "R1", "h", "u", "p", "s", "cisco_ios"⟩,
           ⟨5, "R5", "h", "u", "p", "s", "cisco_ios"⟩]
          ⟨"R6", "h6", "u6", "p6", "s6", "cisco_ios"⟩ (.ok "")).returned.id =
      some (GraphqlSchema.CreateDevice.mutate
          [⟨1, "R1", "h", "u", "p", "s", "cisco_ios"⟩,
           ⟨5, "R5", "h", "u", "p", "s", "cisco_ios"⟩]
          ⟨"R6", "h6", "u6", "p6", "s6", "cisco_ios"⟩ (.ok "")).returned := by
  have h := create_then_fetch_roundtrip
    [⟨1, "R1", "h", "u", "p", "s", "cisco_ios"⟩,
     ⟨5, "R5", "h", "u", "p", "s", "cisco_ios"⟩]
    ⟨"R6", "h6", "u6", "p6", "s6", "cisco_ios"⟩ (.ok "")
  refine ⟨?_, h.2.2.2⟩
  exact (h.2.1 5 (by decide)).trans (by norm_num)
